import Mathlib

/-!
Shallow embedding of the plao plugin runtime (files src/lib.rs and
src/runtime.rs of the repository).

The embedding translates the code, not the prose of the design document:

* `RuntimeDispatcher` (runtime.rs) becomes `DispatcherState`: the `results`
  early-outcome map, the `subscribers` correlation table (call id to the
  sending half of a one-shot reply conduit, the sender itself carried by the
  delivery log instead of the map value), and the `counter` used to mint ids.
* Rust `HashMap` is embedded as an association list with `lookupKey`,
  `containsKey` (HashMap::contains_key), `removeKey` (HashMap::remove) and
  `maxKey` (the code collects the keys, sorts them, reverses and takes the
  first one, which computes the maximum key).
* `i64` arithmetic is `Int` with `wrapI64` applied where the code increments,
  matching two's-complement wrap-around of release builds.
* A Rust panic (an `unwrap` of `None`, or a poisoned-lock `unwrap`) is the
  `panicked` branch of `POut`, distinct from an `Err` return value.
* `Plugin::execute` (lib.rs) is sequentialised: the host event loop's reply
  to the sent envelope is a parameter `hostReply`, and its routing through
  the dispatch loop is the very `dispatchStep` function embedded from
  `RuntimeDispatcher::run`; a `none` reply models the reply conduit failing
  without delivery (RecvError).
-/

namespace Plao

/-- runtime.rs: `pub type PluginOpCallId = i64`. -/
abbrev PluginOpCallId := Int

/-- Rust `Result` as the code uses it for business-level outcomes. -/
inductive RResult (Ok Err : Type) where
  | ok (v : Ok)
  | err (e : Err)
deriving DecidableEq

/-- The value of `i64::MAX`. -/
def i64Max : Int := 2 ^ 63 - 1

/-- Two's-complement wrap-around of `i64` arithmetic (release-build semantics
of an overflowing increment). -/
def wrapI64 (x : Int) : Int := (x + 2 ^ 63) % 2 ^ 64 - 2 ^ 63

/-- Result of running a piece of Rust code that can panic: either a panic
with its message, or a returned value. -/
inductive POut (α : Type) where
  | panicked (msg : String)
  | ret (v : α)
deriving DecidableEq

/-- lib.rs: the error taxonomy `PluginError`. -/
inductive PluginError where
  | FailedToLoad (detail : String)
  | InvalidPlugin (detail : String)
  | RuntimeError (detail : String)
deriving DecidableEq

/-- runtime.rs: `PluginOpCall` — the call envelope sent on the Call Queue. -/
structure PluginOpCall (C : Type) where
  call_id : PluginOpCallId
  call : C
deriving DecidableEq

/-- runtime.rs: `PluginOpCallResult` — an outcome on the Result Queue. -/
structure PluginOpCallResult (Ok Err : Type) where
  call_id : PluginOpCallId
  result : RResult Ok Err
deriving DecidableEq

/-- runtime.rs: `PluginOpCallBack` — the receiving half of the one-shot reply
conduit handed back by `register`. `preDelivered` holds the outcome that
`register` itself already placed on the conduit when the minted id was found
in the early-outcome `results` map (the `result_sender.send(..)` before the
callback is returned); `none` means the conduit starts empty. -/
structure PluginOpCallBack (Ok Err : Type) where
  op_id : PluginOpCallId
  preDelivered : Option (RResult Ok Err)
deriving DecidableEq

/-- runtime.rs: the state of `RuntimeDispatcher`: the `results` early-outcome
map, the `subscribers` correlation table (the mapped sender is the reply
conduit of the call id; delivery through it is tracked by the delivery log of
`dispatchRun`), and the minting `counter`. -/
structure DispatcherState (Ok Err : Type) where
  results : List (PluginOpCallId × RResult Ok Err)
  subscribers : List (PluginOpCallId × Unit)
  counter : Int
deriving DecidableEq

/-- `RuntimeDispatcher::new`: empty maps, counter 0. -/
def initState (Ok Err : Type) : DispatcherState Ok Err := ⟨[], [], 0⟩

/-- `HashMap::get` / lookup on the association-list embedding of a map. -/
def lookupKey {α : Type} : List (PluginOpCallId × α) → PluginOpCallId → Option α
  | [], _ => none
  | p :: rest, k => if p.1 = k then some p.2 else lookupKey rest k

/-- `HashMap::contains_key`. -/
def containsKey {α : Type} (m : List (PluginOpCallId × α)) (k : PluginOpCallId) : Bool :=
  m.any (fun p => p.1 == k)

/-- `HashMap::remove` (ignoring the returned value). -/
def removeKey {α : Type} (m : List (PluginOpCallId × α)) (k : PluginOpCallId) :
    List (PluginOpCallId × α) :=
  m.filter (fun p => p.1 != k)

/-- The maximum key of the map: the code collects the keys into a vector,
sorts it, reverses it and takes the first element, which is the maximum. -/
def maxKey {α : Type} : List (PluginOpCallId × α) → Option PluginOpCallId
  | [] => none
  | p :: rest =>
    some (match maxKey rest with
      | none => p.1
      | some m => max p.1 m)

/-- The `if self.counter > 0` block at the top of `register` (runtime.rs
lines 169 to 178): when the counter is positive the code locks `subscribers`,
dead-stores `counter = 0` if the table is empty, then unconditionally takes
`keys.first().unwrap()` of the sorted-and-reversed key list — a panic when
the table is empty, the maximum key otherwise. -/
def counterAfterScan {Ok Err : Type} (s : DispatcherState Ok Err) : POut Int :=
  if 0 < s.counter then
    match maxKey s.subscribers with
    | none => POut.panicked "unwrap on None"
    | some m => POut.ret m
  else POut.ret s.counter

/-- runtime.rs lines 158 to 196, `RuntimeDispatcher::register`: refuse at
`i64::MAX`; rescan the counter from the pending keys (`counterAfterScan`);
increment and mint `id`; defensively fail if `id` is already subscribed;
if an early outcome is cached for `id`, send it on the fresh conduit and do
not insert a subscriber, else insert the conduit under `id`. The returned
state records the mutations of `self` (counter, maps). -/
def register {Ok Err : Type} (s : DispatcherState Ok Err) :
    POut (RResult (PluginOpCallBack Ok Err) String × DispatcherState Ok Err) :=
  if s.counter = i64Max then POut.ret (RResult.err "too many ops", s)
  else
    match counterAfterScan s with
    | POut.panicked msg => POut.panicked msg
    | POut.ret c =>
      let id := wrapI64 (c + 1)
      if containsKey s.subscribers id then
        POut.ret (RResult.err "already registered", { s with counter := id })
      else
        match lookupKey s.results id with
        | some r =>
          POut.ret (RResult.ok { op_id := id, preDelivered := some r },
            { s with results := removeKey s.results id, counter := id })
        | none =>
          POut.ret (RResult.ok { op_id := id, preDelivered := none },
            { s with subscribers := (id, ()) :: s.subscribers, counter := id })

/-- An outcome forwarded by the dispatch loop to the reply conduit that was
registered under `id`. -/
structure Delivered (Ok Err : Type) where
  id : PluginOpCallId
  result : RResult Ok Err
deriving DecidableEq

/-- One iteration of the dispatch loop body (`RuntimeDispatcher::run`,
runtime.rs lines 211 to 222) on a received outcome: if the call id has no
subscriber, the outcome is inserted into the `results` early-outcome map and
the loop continues; otherwise the subscriber is removed and the outcome is
sent on its conduit. -/
def dispatchStep {Ok Err : Type} (s : DispatcherState Ok Err)
    (res : PluginOpCallResult Ok Err) :
    DispatcherState Ok Err × Option (Delivered Ok Err) :=
  if containsKey s.subscribers res.call_id then
    ({ s with subscribers := removeKey s.subscribers res.call_id },
      some { id := res.call_id, result := res.result })
  else
    ({ s with results := (res.call_id, res.result) :: s.results }, none)

/-- The dispatch loop (`RuntimeDispatcher::run`) over the finite list of
outcomes the Result Queue yields before disconnecting; the empty list is the
RecvError that breaks the loop. Returns the final dispatcher state and the
log of outcomes forwarded to reply conduits (conduit receivers are modelled
as alive, so a forwarding send never fails). -/
def dispatchRun {Ok Err : Type} :
    DispatcherState Ok Err → List (PluginOpCallResult Ok Err) →
      DispatcherState Ok Err × List (Delivered Ok Err)
  | s, [] => (s, [])
  | s, res :: rest =>
    ((dispatchRun (dispatchStep s res).1 rest).1,
      (dispatchStep s res).2.toList ++ (dispatchRun (dispatchStep s res).1 rest).2)

/-- Transport facts surrounding one `execute` call: whether the mutex around
the dispatcher is poisoned (its `lock().unwrap()` then panics), and whether
the Call Queue send succeeds (it fails when the receiving side is gone). -/
structure TransportEnv where
  dispatcherLockPoisoned : Bool
  callSendOk : Bool
deriving DecidableEq

/-- What `Plugin::execute` produces: a panic, a `PluginError` (the `Err`
branch of `PluginResult`), or the business-level result. -/
inductive ExecOut (Ok Err : Type) where
  | panicked (msg : String)
  | err (e : PluginError)
  | ok (r : RResult Ok Err)
deriving DecidableEq

/-- lib.rs lines 41 to 61, `Plugin::execute`: lock the dispatcher (a
poisoned lock panics), `register` (an `Err` becomes a RuntimeError, a panic
propagates), send the envelope on the Call Queue (a failed send becomes a
RuntimeError and the fresh pending entry is left behind), then block on the
reply conduit. The blocking receive is sequentialised: an outcome already
placed on the conduit by `register` is read back directly; otherwise
`hostReply` is the outcome the host event loop sends for the envelope, routed
through `dispatchStep` exactly as the dispatch loop routes it; a `none` reply
is the conduit failing without delivery (RecvError), a RuntimeError. -/
def execute {C Ok Err : Type} (env : TransportEnv)
    (hostReply : PluginOpCall C → Option (RResult Ok Err)) (call : C)
    (s : DispatcherState Ok Err) : ExecOut Ok Err × DispatcherState Ok Err :=
  if env.dispatcherLockPoisoned then (ExecOut.panicked "lock poisoned", s)
  else
    match register s with
    | POut.panicked msg => (ExecOut.panicked msg, s)
    | POut.ret (RResult.err e, s1) => (ExecOut.err (PluginError.RuntimeError e), s1)
    | POut.ret (RResult.ok cb, s1) =>
      if env.callSendOk = false then
        (ExecOut.err (PluginError.RuntimeError "sending on a closed channel"), s1)
      else
        match cb.preDelivered with
        | some r => (ExecOut.ok r, s1)
        | none =>
          match hostReply ⟨cb.op_id, call⟩ with
          | some res =>
            match dispatchStep s1 ⟨cb.op_id, res⟩ with
            | (s2, some d) => (ExecOut.ok d.result, s2)
            | (s2, none) =>
              (ExecOut.err (PluginError.RuntimeError "receiving on a closed channel"), s2)
          | none =>
            (ExecOut.err (PluginError.RuntimeError "receiving on a closed channel"), s1)

/-- The part of `PluginRuntime` that `load_plugin` touches: whether `run()`
has installed the Call Queue sender (`call_sender` is `Some`), and the shared
dispatcher state. -/
structure PluginRuntimeState (Ok Err : Type) where
  call_sender : Bool
  disp : DispatcherState Ok Err
deriving DecidableEq

/-- What `PluginRuntime::load_plugin` produces: a panic, a `PluginError`, or
the admitted proxy (carrying the plugin's name). -/
inductive LoadOut where
  | panicked (msg : String)
  | err (e : PluginError)
  | loaded (name : String)
deriving DecidableEq

/-- runtime.rs lines 130 to 145, `PluginRuntime::load_plugin` together with
`get_call_sender`: take the plugin's name, build the bootstrap payload with
the configured `plugin_loader` (the only member of the plugin data the
runtime reads is its name, so the data is embedded as the name), construct
the proxy — `get_call_sender` unwraps `self.call_sender`, a panic when
`run()` has not installed it — and run the bootstrap payload through the
ordinary `execute` path; `.and_then(|_result| Ok(pl))` returns the proxy
whatever the business-level result is, and maps an `execute` error through
unchanged. -/
def load_plugin {C Ok Err : Type} (env : TransportEnv)
    (hostReply : PluginOpCall C → Option (RResult Ok Err))
    (plugin_loader : String → C) (rt : PluginRuntimeState Ok Err)
    (pluginName : String) : LoadOut × PluginRuntimeState Ok Err :=
  let loading_call := plugin_loader pluginName
  if rt.call_sender = false then (LoadOut.panicked "unwrap on None", rt)
  else
    match execute env hostReply loading_call rt.disp with
    | (ExecOut.panicked msg, s1) => (LoadOut.panicked msg, { rt with disp := s1 })
    | (ExecOut.err e, s1) => (LoadOut.err e, { rt with disp := s1 })
    | (ExecOut.ok _result, s1) => (LoadOut.loaded pluginName, { rt with disp := s1 })

/-- lib.rs: a `PluginSource`: the identifiers `plugins()` lists, and `open`,
which yields the plugin data (embedded as its name) or a `PluginError`. -/
structure SourceM where
  plugins : List String
  openPlugin : String → RResult String PluginError

/-- lib.rs lines 83 to 101, `PluginLoader::load_plugins`, one identifier at a
time (the two chained `filter_map` adapters of the code process each item of
`plugins()` fully before pulling the next): an excluded identifier is skipped
without being opened; a failed `open` is logged and skipped; otherwise
`load_plugin` runs, an `Err` is logged and the plugin skipped, a panic
aborts the whole batch. Returns the identifiers passed to `open`, in order,
and — unless a panic aborted the batch — the admitted proxy names and the
final runtime state. -/
def load_plugins_go {C Ok Err : Type} (env : TransportEnv)
    (hostReply : PluginOpCall C → Option (RResult Ok Err))
    (plugin_loader : String → C) (openPlugin : String → RResult String PluginError)
    (excludes : List String) :
    List String → PluginRuntimeState Ok Err →
      List String × POut (List String × PluginRuntimeState Ok Err)
  | [], rt => ([], POut.ret ([], rt))
  | item :: rest, rt =>
    if excludes.contains item then
      load_plugins_go env hostReply plugin_loader openPlugin excludes rest rt
    else
      match openPlugin item with
      | RResult.err _e =>
        match load_plugins_go env hostReply plugin_loader openPlugin excludes rest rt with
        | (opened, out) => (item :: opened, out)
      | RResult.ok pname =>
        match load_plugin env hostReply plugin_loader rt pname with
        | (LoadOut.panicked msg, _) => ([item], POut.panicked msg)
        | (LoadOut.err _e, rt1) =>
          match load_plugins_go env hostReply plugin_loader openPlugin excludes rest rt1 with
          | (opened, out) => (item :: opened, out)
        | (LoadOut.loaded n, rt1) =>
          match load_plugins_go env hostReply plugin_loader openPlugin excludes rest rt1 with
          | (opened, POut.panicked msg) => (item :: opened, POut.panicked msg)
          | (opened, POut.ret (names, rtF)) => (item :: opened, POut.ret (n :: names, rtF))

/-- `PluginLoader::load_plugins` applied to a source. -/
def load_plugins {C Ok Err : Type} (env : TransportEnv)
    (hostReply : PluginOpCall C → Option (RResult Ok Err))
    (plugin_loader : String → C) (src : SourceM) (excludes : List String)
    (rt : PluginRuntimeState Ok Err) :
    List String × POut (List String × PluginRuntimeState Ok Err) :=
  load_plugins_go env hostReply plugin_loader src.openPlugin excludes src.plugins rt

/-! Classifiers and concrete scenarios used to state properties. -/

/-- Whether a piece of code panicked. -/
def isPanic {α : Type} : POut α → Bool
  | POut.panicked _ => true
  | POut.ret _ => false

/-- An `execute` outcome is transport-safe when it is a business-level result
or a RuntimeError — never a panic and never another error kind. -/
def transportSafe {Ok Err : Type} : ExecOut Ok Err → Bool
  | ExecOut.ok _ => true
  | ExecOut.err (PluginError.RuntimeError _) => true
  | _ => false

/-- A successful `register`, yielding the minted id and the next state. -/
def regOk (s : DispatcherState String String) :
    Option (PluginOpCallId × DispatcherState String String) :=
  match register s with
  | POut.ret (RResult.ok cb, s1) => some (cb.op_id, s1)
  | _ => none

/-- Three calls registered in a row, the third one resolved by the host (the
dispatch loop removing its pending entry), then a fourth `register`: the
listed minted ids. -/
def reuseScenario : Option (List PluginOpCallId) :=
  (regOk (initState String String)).bind fun (i1, s1) =>
  (regOk s1).bind fun (i2, s2) =>
  (regOk s2).bind fun (i3, s3) =>
  (regOk ((dispatchStep s3 ⟨i3, RResult.ok "done"⟩).1)).bind fun (i4, _) =>
  some [i1, i2, i3, i4]

/-- The state of the dispatcher after one call is registered from the initial
state and then resolved by the host (its pending entry removed). -/
def afterOneResolvedCall : Option (DispatcherState String String) :=
  (regOk (initState String String)).bind fun (i1, s1) =>
  some (dispatchStep s1 ⟨i1, RResult.ok "done"⟩).1

/-- The partial-failure batch of the specification: identifier A opens fine,
B fails to open, C opens fine; `batchHost` resolves A's bootstrap call and
rejects C's at the business level. -/
def batchSource : SourceM :=
  ⟨["A", "B", "C"], fun n =>
    if n = "B" then RResult.err (PluginError.InvalidPlugin "bad entry") else RResult.ok n⟩

/-- The host behaviour for `batchSource`: every bootstrap call is answered;
the answer for C is a business-level failure, every other one a success. -/
def batchHost : PluginOpCall String → Option (RResult String String) :=
  fun e => if e.call = "C" then some (RResult.err "bootstrap refused") else some (RResult.ok "ok")

/-- A transport environment with nothing wrong: no poisoned lock, Call Queue
receiver alive. -/
def okEnv : TransportEnv := ⟨false, true⟩

/-- Whether an `execute` outcome is a RuntimeError. -/
def isRuntimeErrorOut {Ok Err : Type} : ExecOut Ok Err → Bool
  | ExecOut.err (PluginError.RuntimeError _) => true
  | _ => false

/-- Whether a `load_plugin` outcome is a FailedToLoad error. -/
def isFailedToLoad : LoadOut → Bool
  | LoadOut.err (PluginError.FailedToLoad _) => true
  | _ => false

/-- Whether a `load_plugin` outcome is a RuntimeError. -/
def isRuntimeErrorLoad : LoadOut → Bool
  | LoadOut.err (PluginError.RuntimeError _) => true
  | _ => false

/-! Map lemmas for the association-list embedding. -/

theorem containsKey_iff {α : Type} (m : List (PluginOpCallId × α)) (k : PluginOpCallId) :
    containsKey m k = true ↔ ∃ p ∈ m, p.1 = k := by
  simp [containsKey, List.any_eq_true]

theorem containsKey_removeKey_self {α : Type} (m : List (PluginOpCallId × α))
    (k : PluginOpCallId) : containsKey (removeKey m k) k = false := by
  rw [Bool.eq_false_iff]
  intro h
  rcases (containsKey_iff _ _).mp h with ⟨p, hp, hpk⟩
  have := (List.mem_filter.mp hp).2
  simp [hpk] at this

theorem containsKey_removeKey_of_ne {α : Type} (m : List (PluginOpCallId × α))
    (k i : PluginOpCallId) (hne : i ≠ k) (h : containsKey m i = true) :
    containsKey (removeKey m k) i = true := by
  rcases (containsKey_iff _ _).mp h with ⟨p, hp, hpk⟩
  refine (containsKey_iff _ _).mpr ⟨p, List.mem_filter.mpr ⟨hp, ?_⟩, hpk⟩
  simp [hpk, hne]

theorem containsKey_of_removeKey {α : Type} (m : List (PluginOpCallId × α))
    (k i : PluginOpCallId) (h : containsKey (removeKey m k) i = true) :
    containsKey m i = true := by
  rcases (containsKey_iff _ _).mp h with ⟨p, hp, hpk⟩
  exact (containsKey_iff _ _).mpr ⟨p, (List.mem_filter.mp hp).1, hpk⟩

theorem not_mem_keys_of_containsKey_false {α : Type} (m : List (PluginOpCallId × α))
    (k : PluginOpCallId) (h : containsKey m k = false) : k ∉ m.map Prod.fst := by
  intro hk
  rcases List.mem_map.mp hk with ⟨p, hp, hpk⟩
  have : containsKey m k = true := (containsKey_iff _ _).mpr ⟨p, hp, hpk⟩
  rw [h] at this
  cases this

/-! Inversion and case lemmas for `register` and `dispatchStep`. -/

/-- What a successful `register` guarantees: the minted id was not pending
at entry (the defensive check), the counter ends at the minted id, and either
a fresh pending entry was inserted for it, or the cached early outcome was
placed on the conduit and no pending entry was created. -/
theorem register_ok_inv {Ok Err : Type} (s : DispatcherState Ok Err)
    (cb : PluginOpCallBack Ok Err) (s1 : DispatcherState Ok Err)
    (h : register s = POut.ret (RResult.ok cb, s1)) :
    containsKey s.subscribers cb.op_id = false ∧
    s1.counter = cb.op_id ∧
    ((cb.preDelivered = none ∧ s1.subscribers = (cb.op_id, ()) :: s.subscribers ∧
        s1.results = s.results) ∨
      (∃ r, cb.preDelivered = some r ∧ s1.subscribers = s.subscribers ∧
        lookupKey s.results cb.op_id = some r ∧
        s1.results = removeKey s.results cb.op_id)) := by
  unfold register at h
  split at h
  · simp at h
  · split at h
    · cases h
    · rename_i c
      simp only [] at h
      split at h
      · simp at h
      · rename_i hsub
        split at h
        · rename_i r hres
          simp only [POut.ret.injEq, Prod.mk.injEq, RResult.ok.injEq] at h
          obtain ⟨hcb, hs⟩ := h
          subst hcb
          subst hs
          refine ⟨by simpa using hsub, rfl, Or.inr ⟨r, rfl, rfl, hres, rfl⟩⟩
        · rename_i hres
          simp only [POut.ret.injEq, Prod.mk.injEq, RResult.ok.injEq] at h
          obtain ⟨hcb, hs⟩ := h
          subst hcb
          subst hs
          exact ⟨by simpa using hsub, rfl, Or.inl ⟨rfl, rfl, rfl⟩⟩

/-- The two possible outcomes of one dispatch-loop iteration: forward to the
matching pending entry (removing it), or cache the early outcome. -/
theorem dispatchStep_spec {Ok Err : Type} (s : DispatcherState Ok Err)
    (res : PluginOpCallResult Ok Err) :
    (containsKey s.subscribers res.call_id = true ∧
      dispatchStep s res =
        ({ s with subscribers := removeKey s.subscribers res.call_id },
          some ⟨res.call_id, res.result⟩)) ∨
    (containsKey s.subscribers res.call_id = false ∧
      dispatchStep s res =
        ({ s with results := (res.call_id, res.result) :: s.results }, none)) := by
  by_cases h : containsKey s.subscribers res.call_id = true
  · exact Or.inl ⟨h, by simp [dispatchStep, h]⟩
  · refine Or.inr ⟨by simpa using h, by simp [dispatchStep, h]⟩

/-- An outcome is only ever forwarded to a conduit that was pending when the
dispatch loop received it. -/
theorem dispatchRun_delivered_sub {Ok Err : Type} (msgs : List (PluginOpCallResult Ok Err))
    (s : DispatcherState Ok Err) (i : PluginOpCallId)
    (h : i ∈ (dispatchRun s msgs).2.map Delivered.id) :
    containsKey s.subscribers i = true := by
  induction msgs generalizing s with
  | nil => simp [dispatchRun] at h
  | cons res rest ih =>
    rcases dispatchStep_spec s res with ⟨hc, he⟩ | ⟨hc, he⟩
    · rw [dispatchRun] at h
      rw [he] at h
      simp only [Option.toList_some, List.map_append, List.map_cons, List.map_nil,
        List.mem_append, List.mem_cons, List.not_mem_nil, or_false] at h
      rcases h with h | h
      · subst h
        exact hc
      · exact containsKey_of_removeKey _ _ _ (ih _ h)
    · rw [dispatchRun] at h
      rw [he] at h
      simp only [Option.toList_none, List.nil_append] at h
      have h2 := ih _ h
      exact h2

/-! Claim C2 -/

/-- Claim C2, counterexample: the dispatch loop embedded from
`RuntimeDispatcher::run` has no reserved sentinel id at all — with two
entries pending (ids 1 and 2), NO call id exists whose failure outcome
removes every remaining pending entry: whatever id the outcome carries, the
correlation table is not emptied, so the pending callers do not all receive
the carried failure and the loop is not driven into a terminal state. -/
theorem C2_no_sentinel_broadcast :
    ¬ ∃ c : PluginOpCallId,
      (dispatchRun (⟨[], [(1, ()), (2, ())], 2⟩ : DispatcherState String String)
          [⟨c, RResult.err "boom"⟩]).1.subscribers = [] := by
  rintro ⟨c, h⟩
  rcases dispatchStep_spec (⟨[], [(1, ()), (2, ())], 2⟩ : DispatcherState String String)
      ⟨c, RResult.err "boom"⟩ with ⟨hc, he⟩ | ⟨hc, he⟩
  · rw [dispatchRun, he, dispatchRun] at h
    have hfil : removeKey ([((1 : PluginOpCallId), ()), (2, ())]) c = [] := h
    rw [removeKey, List.filter_eq_nil_iff] at hfil
    have h1 := hfil (1, ()) (by simp)
    have h2 := hfil (2, ()) (by simp)
    simp only [bne_iff_ne, ne_eq, not_not] at h1 h2
    rw [← h1] at h2
    cases h2
  · rw [dispatchRun, he, dispatchRun] at h
    have hsub : ([((1 : PluginOpCallId), ()), (2, ())] :
        List (PluginOpCallId × Unit)) = [] := h
    cases hsub

/-- Claim C2, amended: the dispatch loop performs no sentinel broadcast; an
incoming outcome removes at most the pending entry registered under its own
call id — every other pending entry survives the iteration (an unmatched
outcome is cached, and the loop only ends on Result Queue disconnect or on a
failed forwarding send). -/
theorem C2_outcome_touches_only_its_entry {Ok Err : Type} (s : DispatcherState Ok Err)
    (res : PluginOpCallResult Ok Err) (k : PluginOpCallId)
    (hk : k ≠ res.call_id) (hpend : containsKey s.subscribers k = true) :
    containsKey (dispatchStep s res).1.subscribers k = true := by
  rcases dispatchStep_spec s res with ⟨hc, he⟩ | ⟨hc, he⟩
  · rw [he]
    exact containsKey_removeKey_of_ne _ _ _ hk hpend
  · rw [he]
    exact hpend

/-- Claim C2, witness: entry 1 stays pending when the outcome for id 2
arrives. -/
theorem C2_outcome_touches_only_its_entry_witness :
    containsKey (dispatchStep (⟨[], [(1, ()), (2, ())], 2⟩ : DispatcherState String String)
        ⟨2, RResult.err "boom"⟩).1.subscribers 1 = true :=
  C2_outcome_touches_only_its_entry _ _ 1 (by decide) (by decide)

/-! Claim C3 -/

/-- Claim C3, counterexample: call ids ARE reused within a Runtime's
lifetime. Three registrations mint 1, 2, 3; after the host resolves call 3
(its pending entry removed by the dispatch loop), the next registration
rescans the counter to the maximum pending key (2) and mints 3 again. -/
theorem C3_call_id_reused : reuseScenario = some [1, 2, 3, 3] := by decide

/-- Claim C3, amended: ids of calls that are pending at the same time are
pairwise distinct — a successful `register` never mints an id that is still
in the correlation table (the defensive containment check guarantees it),
so the table keys stay duplicate-free; but an id can be minted again after
its entry completes and is removed. -/
theorem C3_minted_id_not_pending {Ok Err : Type} (s : DispatcherState Ok Err)
    (cb : PluginOpCallBack Ok Err) (s1 : DispatcherState Ok Err)
    (h : register s = POut.ret (RResult.ok cb, s1)) :
    containsKey s.subscribers cb.op_id = false ∧
    ((s.subscribers.map Prod.fst).Nodup → (s1.subscribers.map Prod.fst).Nodup) := by
  obtain ⟨hfresh, _hc, hcase⟩ := register_ok_inv s cb s1 h
  refine ⟨hfresh, fun hnd => ?_⟩
  rcases hcase with ⟨_, hsub, _⟩ | ⟨r, _, hsub, _, _⟩
  · rw [hsub]
    simp only [List.map_cons]
    exact List.nodup_cons.mpr ⟨not_mem_keys_of_containsKey_false _ _ hfresh, hnd⟩
  · rw [hsub]
    exact hnd

/-- Claim C3, witness: the first registration mints id 1 into an empty
table. -/
theorem C3_minted_id_not_pending_witness :
    containsKey (initState String String).subscribers 1 = false ∧
    (((initState String String).subscribers.map Prod.fst).Nodup →
      ((((⟨[], [(1, ())], 1⟩ : DispatcherState String String)).subscribers.map
        Prod.fst).Nodup)) :=
  C3_minted_id_not_pending (initState String String) ⟨1, none⟩ ⟨[], [(1, ())], 1⟩ (by decide)

/-! Claim C4 -/

/-- Claim C4: `register` does NOT always return a value. The state with
counter 1 and an empty subscriber table — reached from the initial state by
one registration followed by the host resolving that call — makes the next
`register` panic: the counter is positive, so the code takes
`keys.first().unwrap()` of the key list of the empty table, an unwrap of
`None`. -/
theorem C4_register_panics_after_drain :
    afterOneResolvedCall = some (⟨[], [], 1⟩ : DispatcherState String String) ∧
    register (⟨[], [], 1⟩ : DispatcherState String String) =
      POut.panicked "unwrap on None" := by
  exact ⟨by decide, by decide⟩

/-! Claim C6 -/

/-- Claim C6, counterexample: a later outcome for an already-delivered id is
NOT dropped — it is retained in the early-outcome `results` map. With id 1
pending, outcomes "first" and "second" both arrive for id 1: "first" is
forwarded (the only delivery) and "second" ends up stored under id 1 in
`results`, from where a future registration minting id 1 would receive it. -/
theorem C6_late_outcome_retained :
    dispatchRun (⟨[], [(1, ())], 1⟩ : DispatcherState String String)
        [⟨1, RResult.ok "first"⟩, ⟨1, RResult.ok "second"⟩] =
      (⟨[(1, RResult.ok "second")], [], 1⟩, [⟨1, RResult.ok "first"⟩]) := by decide

/-- Claim C6, amended: at most one outcome is ever forwarded per call id —
in any dispatch-loop run the ids of the forwarded outcomes are pairwise
distinct, because a delivery removes the pending entry and the loop never
re-creates one; a later outcome for the same id finds no pending entry and
is stored in the early-outcome cache instead of being forwarded. -/
theorem C6_at_most_once_delivery {Ok Err : Type} (s : DispatcherState Ok Err)
    (msgs : List (PluginOpCallResult Ok Err)) :
    ((dispatchRun s msgs).2.map Delivered.id).Nodup := by
  induction msgs generalizing s with
  | nil => simp [dispatchRun]
  | cons res rest ih =>
    rcases dispatchStep_spec s res with ⟨hc, he⟩ | ⟨hc, he⟩
    · rw [dispatchRun, he]
      simp only [Option.toList_some, List.singleton_append, List.map_cons]
      refine List.nodup_cons.mpr ⟨?_, ih _⟩
      intro hmem
      have h2 : containsKey (removeKey s.subscribers res.call_id) res.call_id = true :=
        dispatchRun_delivered_sub rest _ res.call_id hmem
      rw [containsKey_removeKey_self] at h2
      cases h2
    · rw [dispatchRun, he]
      simp only [Option.toList_none, List.nil_append]
      exact ih _

/-! Helper lemmas for the execute path. -/

/-- A successful fresh registration leaves the minted id pending. -/
theorem register_ok_pending {Ok Err : Type} (s : DispatcherState Ok Err)
    (cb : PluginOpCallBack Ok Err) (s1 : DispatcherState Ok Err)
    (hreg : register s = POut.ret (RResult.ok cb, s1))
    (hpre : cb.preDelivered = none) :
    containsKey s1.subscribers cb.op_id = true := by
  obtain ⟨_, _, hcase⟩ := register_ok_inv _ _ _ hreg
  rcases hcase with ⟨_, hsub, _⟩ | ⟨r, hpre2, _, _, _⟩
  · rw [hsub]
    simp [containsKey]
  · rw [hpre] at hpre2
    cases hpre2

/-- When nothing fails in transport and the host answers the envelope,
`execute` returns exactly the host's business-level result, and the pending
entry minted for the call has been removed again. -/
theorem execute_ok_of_reply {C Ok Err : Type} (env : TransportEnv)
    (hostReply : PluginOpCall C → Option (RResult Ok Err)) (call : C)
    (s : DispatcherState Ok Err) (cb : PluginOpCallBack Ok Err)
    (s1 : DispatcherState Ok Err) (r : RResult Ok Err)
    (hlock : env.dispatcherLockPoisoned = false)
    (hreg : register s = POut.ret (RResult.ok cb, s1))
    (hpre : cb.preDelivered = none)
    (hsend : env.callSendOk = true)
    (hh : hostReply ⟨cb.op_id, call⟩ = some r) :
    execute env hostReply call s =
      (ExecOut.ok r, { s1 with subscribers := removeKey s1.subscribers cb.op_id }) := by
  have hmem : containsKey s1.subscribers cb.op_id = true :=
    register_ok_pending s cb s1 hreg hpre
  have hstep : dispatchStep s1 ⟨cb.op_id, r⟩ =
      ({ s1 with subscribers := removeKey s1.subscribers cb.op_id },
        some ⟨cb.op_id, r⟩) := by
    rcases dispatchStep_spec s1 ⟨cb.op_id, r⟩ with ⟨_, he⟩ | ⟨hc, he⟩
    · exact he
    · rw [hmem] at hc
      cases hc
  simp [execute, hlock, hreg, hsend, hpre, hh, hstep]

/-! Claim C5 -/

/-- Claim C5, counterexample: `execute` called while the dispatcher mutex is
poisoned panics (the `lock().unwrap()` of lib.rs line 43) instead of
surfacing a RuntimeError to the caller. -/
theorem C5_poisoned_lock_panics :
    execute ⟨true, true⟩ batchHost "A" (initState String String) =
      (ExecOut.panicked "lock poisoned", initState String String) ∧
    isRuntimeErrorOut
      (execute ⟨true, true⟩ batchHost "A" (initState String String)).1 = false := by
  exact ⟨by decide, by decide⟩

/-- Claim C5, amended: as long as the dispatcher lock is not poisoned and
`register` does not panic, `execute` returns either the business-level
result or a RuntimeError — registration failure, a failed Call Queue send
and a dead reply conduit all surface as RuntimeError, never as a panic or
another error kind; and when the whole transport works and the host answers
the envelope, the caller gets exactly the host's result. -/
theorem C5_execute_runtime_errors {C Ok Err : Type} (env : TransportEnv)
    (hostReply : PluginOpCall C → Option (RResult Ok Err)) (call : C)
    (s : DispatcherState Ok Err)
    (hlock : env.dispatcherLockPoisoned = false)
    (hreg : isPanic (register s) = false) :
    transportSafe (execute env hostReply call s).1 = true ∧
    (∀ cb s1 r, register s = POut.ret (RResult.ok cb, s1) → cb.preDelivered = none →
      env.callSendOk = true → hostReply ⟨cb.op_id, call⟩ = some r →
      (execute env hostReply call s).1 = ExecOut.ok r) := by
  constructor
  · cases hr : register s with
    | panicked msg =>
      rw [hr] at hreg
      simp [isPanic] at hreg
    | ret v =>
      obtain ⟨cbe, s1⟩ := v
      cases cbe with
      | err e => simp [execute, hlock, hr, transportSafe]
      | ok cb =>
        by_cases hsend : env.callSendOk = false
        · simp [execute, hlock, hr, hsend, transportSafe]
        · cases hpre : cb.preDelivered with
          | some r => simp [execute, hlock, hr, hsend, hpre, transportSafe]
          | none =>
            cases hh : hostReply ⟨cb.op_id, call⟩ with
            | none => simp [execute, hlock, hr, hsend, hpre, hh, transportSafe]
            | some res =>
              rcases hd : dispatchStep s1 ⟨cb.op_id, res⟩ with ⟨s2, d⟩
              cases d <;> simp [execute, hlock, hr, hsend, hpre, hh, hd, transportSafe]
  · intro cb s1 r hr hpre hsend hh
    rw [execute_ok_of_reply env hostReply call s cb s1 r hlock hr hpre hsend hh]

/-- Claim C5, witness: a concrete clean round trip from the initial state. -/
theorem C5_execute_runtime_errors_witness :
    transportSafe (execute okEnv batchHost "A" (initState String String)).1 = true ∧
    (∀ cb s1 r, register (initState String String) = POut.ret (RResult.ok cb, s1) →
      cb.preDelivered = none → okEnv.callSendOk = true →
      batchHost ⟨cb.op_id, "A"⟩ = some r →
      (execute okEnv batchHost "A" (initState String String)).1 = ExecOut.ok r) :=
  C5_execute_runtime_errors okEnv batchHost "A" (initState String String) rfl (by decide)

/-! Claim C1 -/

/-- Claim C1, counterexample: a bootstrap call that FAILS at the business
level still admits the plugin. `batchHost` rejects plugin C's bootstrap call
with the business-level failure "bootstrap refused", yet `load_plugin`
returns the proxy (the `.and_then(|_result| Ok(pl))` of runtime.rs line 141
ignores the business result), and no FailedToLoad error is produced. -/
theorem C1_business_failure_still_admits :
    (load_plugin okEnv batchHost (fun n => n) ⟨true, initState String String⟩ "C").1 =
      LoadOut.loaded "C" ∧
    isFailedToLoad
      (load_plugin okEnv batchHost (fun n => n)
        ⟨true, initState String String⟩ "C").1 = false := by
  exact ⟨by decide, by decide⟩

/-- Claim C1, amended: `load_plugin` builds the bootstrap payload with the
configured bootstrap function and runs it through the ordinary `execute`
path, and returns the admitted proxy exactly when the bootstrap call
completes at the TRANSPORT level — whatever its business-level result is; on
a transport failure (here: the Call Queue send failing) it returns the
RuntimeError produced by `execute`, never a FailedToLoad error. -/
theorem C1_load_plugin_transport {C Ok Err : Type} (env : TransportEnv)
    (hostReply : PluginOpCall C → Option (RResult Ok Err)) (plugin_loader : String → C)
    (rt : PluginRuntimeState Ok Err) (pname : String)
    (cb : PluginOpCallBack Ok Err) (s1 : DispatcherState Ok Err)
    (hcs : rt.call_sender = true)
    (hlock : env.dispatcherLockPoisoned = false)
    (hreg : register rt.disp = POut.ret (RResult.ok cb, s1))
    (hpre : cb.preDelivered = none) :
    (env.callSendOk = true →
      ∀ r, hostReply ⟨cb.op_id, plugin_loader pname⟩ = some r →
        (load_plugin env hostReply plugin_loader rt pname).1 = LoadOut.loaded pname) ∧
    (env.callSendOk = false →
      (load_plugin env hostReply plugin_loader rt pname).1 =
        LoadOut.err (PluginError.RuntimeError "sending on a closed channel")) := by
  constructor
  · intro hsend r hh
    have he := execute_ok_of_reply env hostReply (plugin_loader pname) rt.disp cb s1 r
      hlock hreg hpre hsend hh
    simp [load_plugin, hcs, he]
  · intro hsend
    simp [load_plugin, execute, hcs, hlock, hreg, hsend]

/-- Claim C1, witness: plugin C's bootstrap is refused at the business level
and C is admitted anyway; with a dead Call Queue the same admission is a
RuntimeError. -/
theorem C1_load_plugin_transport_witness :
    (okEnv.callSendOk = true →
      ∀ r, batchHost ⟨1, (fun n => n) "C"⟩ = some r →
        (load_plugin okEnv batchHost (fun n => n)
          ⟨true, initState String String⟩ "C").1 = LoadOut.loaded "C") ∧
    (okEnv.callSendOk = false →
      (load_plugin okEnv batchHost (fun n => n)
        ⟨true, initState String String⟩ "C").1 =
        LoadOut.err (PluginError.RuntimeError "sending on a closed channel")) :=
  C1_load_plugin_transport okEnv batchHost (fun n => n) ⟨true, initState String String⟩ "C"
    ⟨1, none⟩ ⟨[], [(1, ())], 1⟩ rfl rfl (by decide) rfl

/-! Claim C7 -/

/-- Claim C7, counterexample: admission before `run()` does not return a
RuntimeError — it panics: `get_call_sender` unwraps the `None` call sender
(runtime.rs line 144). -/
theorem C7_no_runtime_error_before_run :
    (load_plugin okEnv batchHost (fun n => n)
      ⟨false, initState String String⟩ "p1").1 = LoadOut.panicked "unwrap on None" ∧
    isRuntimeErrorLoad
      (load_plugin okEnv batchHost (fun n => n)
        ⟨false, initState String String⟩ "p1").1 = false := by
  exact ⟨by decide, by decide⟩

/-- Claim C7, amended: any `load_plugin` attempt made before the Runtime's
`run()` has installed the Call Queue sender panics (the unwrap of the absent
sender) instead of returning a RuntimeError; the runtime state is left
unchanged, so no plugin is admitted. -/
theorem C7_admission_before_run_panics {C Ok Err : Type} (env : TransportEnv)
    (hostReply : PluginOpCall C → Option (RResult Ok Err)) (plugin_loader : String → C)
    (rt : PluginRuntimeState Ok Err) (pname : String)
    (h : rt.call_sender = false) :
    load_plugin env hostReply plugin_loader rt pname =
      (LoadOut.panicked "unwrap on None", rt) := by
  simp [load_plugin, h]

/-- Claim C7, witness: a concrete admission attempt on a runtime that was
never run. -/
theorem C7_admission_before_run_panics_witness :
    load_plugin okEnv batchHost (fun n => n) ⟨false, initState String String⟩ "p1" =
      (LoadOut.panicked "unwrap on None", ⟨false, initState String String⟩) :=
  C7_admission_before_run_panics okEnv batchHost (fun n => n)
    ⟨false, initState String String⟩ "p1" rfl

/-! Claim C8 -/

/-- Claim C8: the specification's partial-failure batch does not return
exactly the proxies of the identifiers that open and bootstrap successfully
— it panics. A opens and bootstraps fine (one registered and resolved call),
B's open failure is logged and skipped, but C's bootstrap registration then
finds a positive counter with an empty subscriber table and panics
(`keys.first().unwrap()` of runtime.rs line 177), aborting the whole batch;
all of A, B and C were passed to `open` first. -/
theorem C8_partial_failure_batch_panics :
    load_plugins okEnv batchHost (fun n => n) batchSource []
      ⟨true, initState String String⟩ =
      (["A", "B", "C"], POut.panicked "unwrap on None") := by decide

/-! Claim C10 -/

/-- A registration whose minted id already has a cached early outcome sends
that outcome on the fresh conduit, removes it from the cache and does NOT
insert a pending entry. -/
theorem register_cached {Ok Err : Type} (s : DispatcherState Ok Err) (c : Int)
    (r : RResult Ok Err)
    (hne : ¬ s.counter = i64Max)
    (hscan : counterAfterScan s = POut.ret c)
    (hsub : containsKey s.subscribers (wrapI64 (c + 1)) = false)
    (hres : lookupKey s.results (wrapI64 (c + 1)) = some r) :
    register s = POut.ret (RResult.ok ⟨wrapI64 (c + 1), some r⟩,
      { s with results := removeKey s.results (wrapI64 (c + 1)),
               counter := wrapI64 (c + 1) }) := by
  unfold register
  rw [if_neg hne, hscan]
  simp only [hsub, hres, Bool.false_eq_true, if_false]

/-- Claim C10: an outcome arriving for a call id with no pending entry is
stored in the early-outcome cache (not forwarded), and a subsequent
`register` that mints that same id does not create a pending entry — the
subscriber table is unchanged — but places the cached outcome on the
returned reply conduit and removes it from the cache, so the outcome reaches
the next caller assigned that id rather than being dropped. -/
theorem C10_early_outcome_cached_then_delivered {Ok Err : Type}
    (s : DispatcherState Ok Err) (o : PluginOpCallResult Ok Err) (c : Int)
    (h1 : containsKey s.subscribers o.call_id = false)
    (hne : ¬ (dispatchStep s o).1.counter = i64Max)
    (hscan : counterAfterScan (dispatchStep s o).1 = POut.ret c)
    (hmint : wrapI64 (c + 1) = o.call_id) :
    (dispatchStep s o).2 = none ∧
    lookupKey (dispatchStep s o).1.results o.call_id = some o.result ∧
    register (dispatchStep s o).1 =
      POut.ret (RResult.ok ⟨o.call_id, some o.result⟩,
        { (dispatchStep s o).1 with
            results := removeKey (dispatchStep s o).1.results o.call_id,
            counter := o.call_id }) := by
  rcases dispatchStep_spec s o with ⟨hc, he⟩ | ⟨hc, he⟩
  · rw [h1] at hc
    cases hc
  · rw [he] at hne hscan ⊢
    have hres : lookupKey ((o.call_id, o.result) :: s.results) o.call_id =
        some o.result := by
      simp [lookupKey]
    have hsub : containsKey s.subscribers (wrapI64 (c + 1)) = false := by
      rw [hmint]
      exact h1
    have hr := register_cached ({ s with results := (o.call_id, o.result) :: s.results })
      c o.result hne hscan hsub (by rw [hmint]; exact hres)
    rw [hmint] at hr
    exact ⟨rfl, hres, hr⟩

/-- Claim C10, witness: the outcome for id 1 arrives before any registration,
is cached, and the next registration (which mints id 1) receives it. -/
theorem C10_early_outcome_cached_then_delivered_witness :
    (dispatchStep (initState String String) ⟨1, RResult.ok "early"⟩).2 = none ∧
    lookupKey (dispatchStep (initState String String) ⟨1, RResult.ok "early"⟩).1.results 1 =
      some (RResult.ok "early") ∧
    register (dispatchStep (initState String String) ⟨1, RResult.ok "early"⟩).1 =
      POut.ret (RResult.ok ⟨1, some (RResult.ok "early")⟩,
        { (dispatchStep (initState String String) ⟨1, RResult.ok "early"⟩).1 with
            results := removeKey
              (dispatchStep (initState String String) ⟨1, RResult.ok "early"⟩).1.results 1,
            counter := 1 }) :=
  C10_early_outcome_cached_then_delivered (initState String String) ⟨1, RResult.ok "early"⟩
    0 (by decide) (by decide) (by decide) (by decide)

end Plao
